import Mathlib

/-!
Verification of the athena-sqlite repository.

The glue layer of the repository (`lambda-function/s3qlite.py`) is embedded from
source below.  The storage-adapter core (the `vfs` module providing `S3VFS`
and `S3VFSFile`, imported by the glue at `s3qlite.py:4`) is part of the
repository but its source is not available here; those components are
modelled from the specification, as marked by their doc comments.
-/

namespace AthenaSqlite

/-! ## Storage-adapter core, modelled from the spec -/

/-- Modelled from the spec (§7 error taxonomy for the missing `vfs` module):
`NotFound`, `Transient`, `RangeUnsatisfiable`/`ShortRead`, `Unsupported`,
`InvalidArgument`. -/
inductive VfsError where
  | NotFound
  | Transient
  | RangeUnsatisfiable
  | ShortRead
  | Unsupported
  | InvalidArgument
deriving DecidableEq

/-- Modelled from the spec (§4.1, missing `vfs` module): one attempt of the
underlying transport of the Range Fetcher.  A remote object is immutable, so a
successful attempt returns bytes; the other outcomes are the typed failures
of §7. -/
inductive FetchOutcome where
  | ok (bytes : List Nat)
  | notFound
  | rangeUnsatisfiable
  | transient
deriving DecidableEq

/-- Modelled from the spec (§4.1, missing `vfs` module): fixed maximum retry
count for transient failures ("fixed max attempt count, e.g. 3"), so that
three consecutive transient failures still leave one further attempt. -/
def maxTransientRetries : Nat := 3

/-- Modelled from the spec (§4.1, missing `vfs` module): the retry loop of
the Range Fetcher.  `net i` is the outcome of the i-th underlying attempt;
the loop retries only `transient` outcomes while retry budget remains and
returns the final outcome together with the number of underlying attempts
made. -/
def retryLoop (net : Nat → FetchOutcome) (attempt : Nat) : Nat → FetchOutcome × Nat
  | 0 => (net attempt, 1)
  | budget + 1 =>
    match net attempt with
    | .transient =>
      let (res, n) := retryLoop net (attempt + 1) budget
      (res, n + 1)
    | other => (other, 1)

/-- Modelled from the spec (§4.1, missing `vfs` module): a block fetch with
retry, starting at the first underlying attempt with the full retry budget. -/
def fetchWithRetry (net : Nat → FetchOutcome) : FetchOutcome × Nat :=
  retryLoop net 0 maxTransientRetries

/-- Modelled from the spec (§4.1, missing `vfs` module): an exact byte-range
read of an immutable remote object, the object being represented by its full
byte sequence.  `probe_size` (§4.1) returns the total byte length of the object,
so the bytes of the object determine every range read. -/
def rangeBytes (object : List Nat) (off len : Nat) : List Nat :=
  (object.drop off).take len

/-- Modelled from the spec (§4.1, missing `vfs` module): `probe_size` returns
the total byte length of the object without transferring its body. -/
def probe_size (object : List Nat) : Nat :=
  object.length

/-- Modelled from the spec (§4.2, missing `vfs` module): the Page Cache
assembles a read from whole-block fetches.  `blocksBytes B object s k` is the
concatenation of the `k` consecutive blocks starting at block index `s`,
each block being the exact byte span `[i*B, i*B + B)` of the object (the
final block of the object may be shorter). -/
def blocksBytes (B : Nat) (object : List Nat) : Nat → Nat → List Nat
  | _, 0 => []
  | s, k + 1 => rangeBytes object (s * B) B ++ blocksBytes B object (s + 1) k

/-- Modelled from the spec (§4.2, missing `vfs` module): `read` computes the
covering set of block indices for `[off, off+len)`, fetches each block, and
assembles the requested range by slicing across the retrieved blocks. -/
def cacheRead (B : Nat) (object : List Nat) (off len : Nat) : List Nat :=
  let firstB := off / B
  let lastB := (off + len - 1) / B
  let assembled := blocksBytes B object firstB (lastB + 1 - firstB)
  (assembled.drop (off - firstB * B)).take len

/-- Modelled from the spec (§3, missing `vfs` module): lock modes of the
Virtual File Handle State (none/shared/exclusive). -/
inductive LockMode where
  | noLock
  | shared
  | exclusive
deriving DecidableEq

/-- Modelled from the spec (§3, missing `vfs` module): Virtual File Handle
State — object reference (bucket + key), cached object size, lock mode and
closed flag. -/
structure FileState where
  bucket : String
  key : String
  objectSize : Nat
  lockMode : LockMode
  closed : Bool
deriving DecidableEq

namespace VirtualFile

/-- Modelled from the spec (§4.3, missing `vfs` module): `size()` returns the
cached Object Size, fetched once at open via `probe_size`. -/
def size (object : List Nat) : Nat :=
  probe_size object

/-- Modelled from the spec (§4.3, missing `vfs` module): `read_at` delegates
to the Page Cache; if the requested range extends beyond Object Size it
fails with `ShortRead`. -/
def read_at (B : Nat) (object : List Nat) (off len : Nat) :
    Except VfsError (List Nat) :=
  if off + len ≤ size object then
    .ok (cacheRead B object off len)
  else
    .error .ShortRead

/-- Modelled from the spec (§4.3, missing `vfs` module): `write_at` always
fails with `Unsupported` and leaves the handle state unchanged. -/
def write_at (st : FileState) (off : Nat) (data : List Nat) :
    Except VfsError Unit × FileState :=
  (.error .Unsupported, st)

/-- Modelled from the spec (§4.3, missing `vfs` module): `truncate` always
fails with `Unsupported` and leaves the handle state unchanged. -/
def truncate (st : FileState) (newSize : Nat) :
    Except VfsError Unit × FileState :=
  (.error .Unsupported, st)

end VirtualFile

/-- Modelled from the spec (§4.4, missing `vfs` module): the Virtual
Filesystem Registry owns the fetcher and a cache of fetched blocks, keyed by
(object reference, block index). -/
structure RegistryState where
  cachedBlocks : List ((String × String) × Nat × List Nat)
deriving DecidableEq

namespace Registry

/-- Modelled from the spec (§4.4, missing `vfs` module): `delete(uri)` always
fails with `Unsupported` and leaves the registry state unchanged. -/
def delete (st : RegistryState) (uri : String) :
    Except VfsError Unit × RegistryState :=
  (.error .Unsupported, st)

end Registry

/-! ## Glue layer, embedded from `src/lambda-function/s3qlite.py` -/

/-- SQLite open flag `SQLITE_OPEN_READONLY` (value 0x1), as exposed by apsw
and used at `s3qlite.py:66` and `s3qlite.py:182`. -/
def SQLITE_OPEN_READONLY : Nat := 1

/-- SQLite open flag `SQLITE_OPEN_URI` (value 0x40), as exposed by apsw and
used at `s3qlite.py:66` and `s3qlite.py:182`. -/
def SQLITE_OPEN_URI : Nat := 64

/-- Federation capabilities constant, `s3qlite.py:17`. -/
def CAPABILITIES : Nat := 23

/-- Python exceptions the glue can raise: `KeyError` from a missing dict key
and `NameError` from loading an unbound name. -/
inductive PyErr where
  | keyError (key : String)
  | nameError (name : String)
deriving DecidableEq

/-- An incoming Lambda event, embedding the dict keys the glue reads.  Every
field is optional because a Python dict access of a missing key raises
`KeyError`; `event.get` returns `None` instead. -/
structure Event where
  atType : Option String
  catalogName : Option String
  schemaName : Option String
  tableName : Option (String × String)
  queryId : Option String

/-- Column types of the pyarrow schemas the glue constructs
(`s3qlite.py:89` and `s3qlite.py:191`). -/
inductive ColType where
  | int64
  | str
deriving DecidableEq

/-- The fixed four-column schema built at `s3qlite.py:89` and
`s3qlite.py:191`. -/
def recordsSchema : List (String × ColType) :=
  [("year", .int64), ("month", .int64), ("day", .int64), ("someval", .str)]

/-- One page of an S3 `list_objects_v2` response: the listed object keys and
the optional `NextContinuationToken`. -/
structure S3Page where
  contents : List String
  nextContinuationToken : Option String

/-- The request parameters of one `list_objects_v2` call
(`s3qlite.py:32-36`): bucket, key prefix, delimiter and continuation
token. -/
structure ListParams where
  bucket : String
  keyPfx : String
  delimiter : String
  continuationToken : Option String
deriving DecidableEq

/-- One observable storage-path action of the glue: constructing a
connection URI, opening an apsw connection through the S3 VFS, or executing
a SQL statement on the open connection. -/
inductive StorageAction where
  | buildUri (uri : String)
  | openConn (uri : String) (flags : Nat) (vfs : String)
  | execSql (sql : String)
deriving DecidableEq

/-- The Python `str.replace` on character lists for a non-empty pattern:
replaces every non-overlapping occurrence of `pat`, leftmost first, by
`rep`.  (The glue only ever replaces non-empty patterns,
`s3qlite.py:41`.)  The fuel argument starts at the input length and makes
the recursion structural. -/
def replaceLoop (pat rep : List Char) : Nat → List Char → List Char
  | 0, s => s
  | _, [] => []
  | fuel + 1, c :: rest =>
    if pat.isPrefixOf (c :: rest) ∧ 0 < pat.length then
      rep ++ replaceLoop pat rep fuel ((c :: rest).drop pat.length)
    else
      c :: replaceLoop pat rep fuel rest

/-- The Python `str.replace` on strings (non-empty pattern). -/
def pyReplace (s pat rep : String) : String :=
  ⟨replaceLoop pat.data rep.data s.data.length s.data⟩

/-- The per-key transformation of `s3qlite.py:41`:
`data["Key"].replace(S3_PREFIX + "/", "").replace(".sqlite", "")` (quoting normalised). -/
def sqliteBasename (pfx key : String) : String :=
  pyReplace (pyReplace key (pfx ++ "/") "") ".sqlite" ""

/-- Embeds `ListSchemasRequest._list_sqlite_objects` (`s3qlite.py:30-47`):
the pagination loop over `list_objects_v2` responses.  `pages` is the
sequence of responses the S3 client returns to successive calls; the loop
collects the transformed key of every listed object and continues while the
current response carries a `NextContinuationToken`. -/
def listSqliteObjects (pfx : String) : List S3Page → List String
  | [] => []
  | page :: rest =>
    let names := page.contents.map (sqliteBasename pfx)
    match page.nextContinuationToken with
    | some _ => names ++ listSqliteObjects pfx rest
    | none => names

/-- Embeds the request side of the same loop (`s3qlite.py:32-44`): the
parameters of each `list_objects_v2` call that is issued.  The first call
carries no continuation token; each later call carries the token of the
previous response. -/
def listCalls (bucket pfx : String) (tok : Option String) : List S3Page → List ListParams
  | [] => []
  | page :: rest =>
    ⟨bucket, pfx ++ "/", "/", tok⟩ ::
      match page.nextContinuationToken with
      | some t => listCalls bucket pfx (some t) rest
      | none => []

/-- Responses the glue can return, embedding the dicts built in
`s3qlite.py`.  Fields carrying random UUIDs or opaque base64-serialized
pyarrow buffers are abstracted to their structured content. -/
inductive Response where
  | listSchemas (catalogName : String) (schemas : List String)
  | listTables (catalogName : String) (tables : List (String × String))
  | getTable (catalogName : String) (tableName : String × String)
      (schema : List (String × ColType)) (partitionColumns : List String)
  | ping (catalogName : String) (queryId : String) (sourceType : String)
      (capabilities : Nat)
  | getTableLayout (catalogName : String) (tableName : String × String)
  | getSplits (catalogName : String) (spillBucket : String)
  | readRecords (catalogName : String) (schema : List (String × ColType))
      (years months days : List Int) (somevals : List String)
deriving DecidableEq

/-- A row of the `records` table as destructured at `s3qlite.py:186-189`:
`row[0]`..`row[3]` collected into int64/int64/int64/string columns. -/
abbrev Row : Type := Int × Int × Int × String

/-- The query oracle: the rows a SQL query returns on the database behind a
given connection URI. -/
abbrev Db : Type := String → String → List Row

/-- Embeds `ListSchemasRequest.execute` (`s3qlite.py:22-28`).  The response
dict evaluates the `catalogName` key of the event before calling
`_list_sqlite_objects`, so a missing key raises `KeyError` first. -/
def ListSchemasRequest.execute (bucket pfx : String) (pages : List S3Page)
    (event : Event) : Except PyErr Response :=
  match event.catalogName with
  | none => .error (.keyError "catalogName")
  | some cat => .ok (.listSchemas cat (listSqliteObjects pfx pages))

/-- Embeds `ListTablesRequest.execute` (`s3qlite.py:52-61`).
`event.get` of `schemaName` yields `None` when absent and the Python
`str.format` renders it as the text `None`.  The response dict evaluates
the `catalogName` key of the event and then loads the unbound name `tables`, so it
raises `KeyError` when `catalogName` is missing and `NameError` otherwise;
the helper `_fetch_table_list` is never called, so no connection is
opened. -/
def ListTablesRequest.execute (bucket pfx : String) (event : Event) :
    Except PyErr Response × List StorageAction :=
  let sqlite_dbname := match event.schemaName with
    | some s => s
    | none => "None"
  let sqlite_vfs_path :=
    "file:/" ++ pfx ++ "/" ++ sqlite_dbname ++ ".sqlite?bucket=" ++ bucket
  (match event.catalogName with
   | none => .error (.keyError "catalogName")
   | some _ => .error (.nameError "tables"),
   [.buildUri sqlite_vfs_path])

/-- Embeds `ListTablesRequest._fetch_table_list` (`s3qlite.py:63-71`), which
the glue never calls.  It opens a read-only connection through the S3 VFS,
runs the table-listing query, and — on the first row returned — loads the
unbound name `sqlite_dbname`, raising `NameError`; with no rows it falls
off the end and returns `None`.  `tableRows` is the answer of the oracle to the
`sqlite_master` query. -/
def fetchTableList (tableRows : List String) (sqlite_path vfsname : String) :
    Except PyErr Unit × List StorageAction :=
  (match tableRows with
   | [] => .ok ()
   | _ :: _ => .error (.nameError "sqlite_dbname"),
   [.openConn sqlite_path (SQLITE_OPEN_READONLY ||| SQLITE_OPEN_URI) vfsname,
    .execSql "SELECT name FROM sqlite_master WHERE type='table' ORDER BY name;"])

/-- The connection URI built at `s3qlite.py:181`:
`"file:/{}/sample_data.sqlite?bucket={}".format(S3_PREFIX, S3_BUCKET)`. -/
def readRecordsUri (bucket pfx : String) : String :=
  "file:/" ++ pfx ++ "/sample_data.sqlite?bucket=" ++ bucket

/-- Embeds `lambda_handler` (`s3qlite.py:74-202`).  Dispatches on
the `@type` key of the event (a missing key raises `KeyError`); an unhandled request
type falls off the `if`/`elif` chain and returns `None`.  `pages` is the
listing behaviour of the S3 client, `db` the query oracle, `vfsname` the VFS
registration name of the `S3VFS()` instance the ReadRecords branch
constructs at `s3qlite.py:179`.  The second component is the trace of
storage-path actions the call performs. -/
def lambdaHandler (bucket pfx vfsname : String) (pages : List S3Page)
    (db : Db) (event : Event) :
    Except PyErr (Option Response) × List StorageAction :=
  match event.atType with
  | none => (.error (.keyError "@type"), [])
  | some request_type =>
    if request_type = "ListSchemasRequest" then
      ((ListSchemasRequest.execute bucket pfx pages event).map some, [])
    else if request_type = "ListTablesRequest" then
      ((ListTablesRequest.execute bucket pfx event).1.map some,
       (ListTablesRequest.execute bucket pfx event).2)
    else if request_type = "GetTableRequest" then
      match event.tableName with
      | none => (.error (.keyError "tableName"), [])
      | some (databaseName, tableName) =>
        match event.catalogName with
        | none => (.error (.keyError "catalogName"), [])
        | some cat =>
          (.ok (some (.getTable cat (databaseName, tableName) recordsSchema [])), [])
    else if request_type = "PingRequest" then
      match event.catalogName with
      | none => (.error (.keyError "catalogName"), [])
      | some cat =>
        match event.queryId with
        | none => (.error (.keyError "queryId"), [])
        | some qid => (.ok (some (.ping cat qid "sqlite" CAPABILITIES)), [])
    else if request_type = "GetTableLayoutRequest" then
      match event.tableName with
      | none => (.error (.keyError "tableName"), [])
      | some (databaseName, tableName) =>
        match event.catalogName with
        | none => (.error (.keyError "catalogName"), [])
        | some cat =>
          (.ok (some (.getTableLayout cat (databaseName, tableName))), [])
    else if request_type = "GetSplitsRequest" then
      match event.catalogName with
      | none => (.error (.keyError "catalogName"), [])
      | some cat => (.ok (some (.getSplits cat bucket)), [])
    else if request_type = "ReadRecordsRequest" then
      let uri := readRecordsUri bucket pfx
      let sql := "SELECT * FROM records"
      let rows := db uri sql
      let acts : List StorageAction :=
        [.buildUri uri,
         .openConn uri (SQLITE_OPEN_READONLY ||| SQLITE_OPEN_URI) vfsname,
         .execSql sql]
      match event.catalogName with
      | none => (.error (.keyError "catalogName"), acts)
      | some cat =>
        (.ok (some (.readRecords cat recordsSchema
          (rows.map fun r => r.1)
          (rows.map fun r => r.2.1)
          (rows.map fun r => r.2.2.1)
          (rows.map fun r => r.2.2.2))), acts)
    else
      (.ok none, [])

/-- Reassembles rows from the four column lists built at
`s3qlite.py:186-192`, for comparison with the row list of the query. -/
def rowsOfColumns : List Int → List Int → List Int → List String → List Row
  | y :: ys, m :: ms, d :: ds, v :: vs => (y, m, d, v) :: rowsOfColumns ys ms ds vs
  | _, _, _, _ => []

/-- Classifies a SQL string as a SELECT statement. -/
def isSelectStmt (sql : String) : Bool :=
  "SELECT".data.isPrefixOf sql.data

/-- A storage action that never writes: a connection open with exactly the
read-only URI flags, a SELECT statement, or a mere URI construction. -/
def actionReadOnly : StorageAction → Bool
  | .openConn _ flags _ => flags == SQLITE_OPEN_READONLY ||| SQLITE_OPEN_URI
  | .execSql sql => isSelectStmt sql
  | .buildUri _ => true

/-- A storage action whose URI (if any) has the shape
`file:/{prefix}/{schema}.sqlite?bucket={bucket}`. -/
def uriConformant (bucket pfx : String) : StorageAction → Prop
  | .buildUri uri =>
      ∃ s, uri = "file:/" ++ pfx ++ "/" ++ s ++ ".sqlite?bucket=" ++ bucket
  | .openConn uri _ _ =>
      ∃ s, uri = "file:/" ++ pfx ++ "/" ++ s ++ ".sqlite?bucket=" ++ bucket
  | .execSql _ => True

/-- The listing responses the pagination loop of
`ListSchemasRequest._list_sqlite_objects` actually consumes: every page up
to and including the first one without a `NextContinuationToken`. -/
def consumedPages : List S3Page → List S3Page
  | [] => []
  | p :: rest =>
    match p.nextContinuationToken with
    | some _ => p :: consumedPages rest
    | none => [p]

/-! ## Helper lemmas -/

lemma lt_div_succ_mul (a b : Nat) (hb : 0 < b) : a < (a / b + 1) * b := by
  rw [Nat.add_mul, Nat.one_mul]
  have h1 := Nat.div_add_mod a b
  have h2 := Nat.mod_lt a hb
  calc a = b * (a / b) + a % b := h1.symm
    _ < b * (a / b) + b := Nat.add_lt_add_left h2 _
    _ = a / b * b + b := by rw [Nat.mul_comm]

lemma blocksBytes_eq (B : Nat) (object : List Nat) (k s : Nat) :
    blocksBytes B object s k = (object.drop (s * B)).take (k * B) := by
  induction k generalizing s with
  | zero => simp [blocksBytes]
  | succ k ih =>
    show rangeBytes object (s * B) B ++ blocksBytes B object (s + 1) k = _
    rw [ih (s + 1)]
    unfold rangeBytes
    rw [show (k + 1) * B = B + k * B by ring, List.take_add, List.drop_drop]
    congr 3
    ring

lemma cacheRead_eq (B : Nat) (hB : 0 < B) (object : List Nat) (off len : Nat) :
    cacheRead B object off len = (object.drop off).take len := by
  simp only [cacheRead]
  rw [blocksBytes_eq]
  have hfB : off / B * B ≤ off := Nat.div_mul_le_self off B
  have hfle : off / B ≤ (off + len - 1) / B + 1 := by
    calc off / B ≤ (off + len - 1 + B) / B := Nat.div_le_div_right (by omega)
      _ = (off + len - 1) / B + 1 := Nat.add_div_right _ hB
  have hcov : off + len ≤ ((off + len - 1) / B + 1) * B := by
    have hx := lt_div_succ_mul (off + len - 1) B hB
    exact le_trans (by omega) (Nat.succ_le_of_lt hx)
  have hkey : len ≤ ((off + len - 1) / B + 1 - off / B) * B - (off - off / B * B) := by
    have hsub : ((off + len - 1) / B + 1 - off / B) * B =
        ((off + len - 1) / B + 1) * B - off / B * B := Nat.sub_mul _ _ _
    have hmle : off / B * B ≤ ((off + len - 1) / B + 1) * B :=
      Nat.mul_le_mul_right B hfle
    rw [hsub]
    generalize ((off + len - 1) / B + 1) * B = M at hcov hmle
    generalize off / B * B = F at hfB hmle ⊢
    omega
  rw [List.drop_take, List.drop_drop, show off / B * B + (off - off / B * B) = off by omega,
    List.take_take, Nat.min_eq_left hkey]

lemma listSqliteObjects_eq (pfx : String) (pages : List S3Page) :
    listSqliteObjects pfx pages =
      ((consumedPages pages).map fun p => p.contents.map (sqliteBasename pfx)).flatten := by
  induction pages with
  | nil => rfl
  | cons p rest ih =>
    simp only [listSqliteObjects, consumedPages]
    cases p.nextContinuationToken with
    | none => simp
    | some t => simp [ih]

lemma listCalls_shape (bucket pfx : String) (tok : Option String)
    (pages : List S3Page) :
    (listCalls bucket pfx tok pages).all
      (fun call => call.delimiter == "/" && call.keyPfx == pfx ++ "/" &&
        call.bucket == bucket) = true := by
  induction pages generalizing tok with
  | nil => rfl
  | cons p rest ih =>
    simp only [listCalls]
    cases p.nextContinuationToken with
    | none => simp
    | some t => simpa using ih (some t)

lemma rowsOfColumns_map (l : List Row) :
    rowsOfColumns (l.map fun r => r.1) (l.map fun r => r.2.1)
      (l.map fun r => r.2.2.1) (l.map fun r => r.2.2.2) = l := by
  induction l with
  | nil => rfl
  | cons r rest ih => simp [rowsOfColumns, ih]

/-! ## Claim theorems -/

/-- C1: for every open Virtual File Handle and every offset and length with
the range `[offset, offset+length)` contained in `[0, Object Size)`,
`read_at(offset, length)` returns exactly the bytes that a direct fetch of
the whole object, sliced at `[offset, offset+length)`, would return (cache
transparency). -/
theorem c1_read_at_cache_transparency (B : Nat) (object : List Nat)
    (off len : Nat) (hB : 0 < B) (h : off + len ≤ object.length) :
    VirtualFile.read_at B object off len = .ok ((object.drop off).take len) := by
  unfold VirtualFile.read_at VirtualFile.size probe_size
  rw [if_pos h, cacheRead_eq B hB]

/-- Witness for C1 at a concrete block size, object and range. -/
theorem c1_witness :
    0 < 4 ∧ 3 + 5 ≤ ([10, 11, 12, 13, 14, 15, 16, 17, 18, 19] : List Nat).length ∧
    VirtualFile.read_at 4 [10, 11, 12, 13, 14, 15, 16, 17, 18, 19] 3 5 =
      .ok ((([10, 11, 12, 13, 14, 15, 16, 17, 18, 19] : List Nat).drop 3).take 5) :=
  ⟨by decide, by decide,
    c1_read_at_cache_transparency 4 [10, 11, 12, 13, 14, 15, 16, 17, 18, 19] 3 5
      (by decide) (by decide)⟩

/-- C2: for every argument value, the Virtual File Handle operations
`write_at` and `truncate` and the Virtual Filesystem Registry operation
`delete` fail with the `Unsupported` error; none of them ever succeeds or
modifies any state. -/
theorem c2_write_paths_unsupported :
    (∀ (st : FileState) (off : Nat) (data : List Nat),
      VirtualFile.write_at st off data = (.error .Unsupported, st)) ∧
    (∀ (st : FileState) (newSize : Nat),
      VirtualFile.truncate st newSize = (.error .Unsupported, st)) ∧
    ∀ (st : RegistryState) (uri : String),
      Registry.delete st uri = (.error .Unsupported, st) :=
  ⟨fun _ _ _ => rfl, fun _ _ => rfl, fun _ _ => rfl⟩

/-- C6: `size()` returns the true total byte length of the remote object,
and for every `k > 0` a `read_at` requesting bytes in
`[Object Size, Object Size + k)` fails with a ShortRead error rather than
returning zero-filled or otherwise fabricated bytes. -/
theorem c6_size_true_and_no_fabricated_bytes (B : Nat) (object : List Nat)
    (k : Nat) (hk : 0 < k) :
    VirtualFile.size object = object.length ∧
    VirtualFile.read_at B object (VirtualFile.size object) k =
      .error .ShortRead := by
  refine ⟨rfl, ?_⟩
  unfold VirtualFile.read_at VirtualFile.size probe_size
  rw [if_neg (by omega)]

/-- Witness for C6 at a concrete object and positive overrun. -/
theorem c6_witness :
    0 < 2 ∧
    (VirtualFile.size [1, 2, 3] = ([1, 2, 3] : List Nat).length ∧
      VirtualFile.read_at 4 [1, 2, 3] (VirtualFile.size [1, 2, 3]) 2 =
        .error .ShortRead) :=
  ⟨by decide, c6_size_true_and_no_fabricated_bytes 4 [1, 2, 3] 2 (by decide)⟩

/-- Unfolding step for the Range Fetcher retry loop. -/
lemma retryLoop_step (net : Nat → FetchOutcome) (a b : Nat) :
    retryLoop net a (b + 1) =
      match net a with
      | .transient =>
        ((retryLoop net (a + 1) b).1, (retryLoop net (a + 1) b).2 + 1)
      | other => (other, 1) :=
  rfl

/-- C7: the Range Fetcher retries only Transient failures, with a fixed
maximum attempt count; three consecutive transient failures followed by a
success still yield the correct bytes with exactly 4 underlying attempts,
and after exhausting retries the Transient error is surfaced. -/
theorem c7_retry_policy :
    (∀ net : Nat → FetchOutcome, net 0 ≠ .transient →
      fetchWithRetry net = (net 0, 1)) ∧
    (∀ (net : Nat → FetchOutcome) (bs : List Nat),
      net 0 = .transient → net 1 = .transient → net 2 = .transient →
      net 3 = .ok bs → fetchWithRetry net = (.ok bs, 4)) ∧
    ∀ net : Nat → FetchOutcome,
      net 0 = .transient → net 1 = .transient → net 2 = .transient →
      net 3 = .transient → fetchWithRetry net = (.transient, 4) := by
  refine ⟨?_, ?_, ?_⟩
  · intro net h
    show retryLoop net 0 (2 + 1) = (net 0, 1)
    rw [retryLoop_step]
    cases hn : net 0 with
    | ok bs => rfl
    | notFound => rfl
    | rangeUnsatisfiable => rfl
    | transient => exact absurd hn h
  · intro net bs h0 h1 h2 h3
    show retryLoop net 0 (2 + 1) = (.ok bs, 4)
    rw [retryLoop_step, h0]
    show ((retryLoop net 1 (1 + 1)).1, (retryLoop net 1 (1 + 1)).2 + 1) = (.ok bs, 4)
    rw [retryLoop_step, h1]
    show ((retryLoop net 2 (0 + 1)).1, (retryLoop net 2 (0 + 1)).2 + 1 + 1) = (.ok bs, 4)
    rw [retryLoop_step, h2]
    show ((retryLoop net 3 0).1, (retryLoop net 3 0).2 + 1 + 1 + 1) = (.ok bs, 4)
    show ((net 3, 1).1, (net 3, 1).2 + 1 + 1 + 1) = (.ok bs, 4)
    rw [h3]
  · intro net h0 h1 h2 h3
    show retryLoop net 0 (2 + 1) = (.transient, 4)
    rw [retryLoop_step, h0]
    show ((retryLoop net 1 (1 + 1)).1, (retryLoop net 1 (1 + 1)).2 + 1) = (.transient, 4)
    rw [retryLoop_step, h1]
    show ((retryLoop net 2 (0 + 1)).1, (retryLoop net 2 (0 + 1)).2 + 1 + 1) = (.transient, 4)
    rw [retryLoop_step, h2]
    show ((net 3, 1).1, (net 3, 1).2 + 1 + 1 + 1) = (.transient, 4)
    rw [h3]

/-- A transport that fails transiently three times, then succeeds. -/
def netAfterThree : Nat → FetchOutcome :=
  fun i => if i < 3 then .transient else .ok [7]

/-- A transport that always fails transiently. -/
def netAlwaysTransient : Nat → FetchOutcome :=
  fun _ => .transient

/-- A transport that fails immediately with NotFound. -/
def netImmediateNotFound : Nat → FetchOutcome :=
  fun _ => .notFound

/-- Witness for C7 at concrete transports. -/
theorem c7_witness :
    fetchWithRetry netImmediateNotFound = (.notFound, 1) ∧
    fetchWithRetry netAfterThree = (.ok [7], 4) ∧
    fetchWithRetry netAlwaysTransient = (.transient, 4) :=
  ⟨c7_retry_policy.1 netImmediateNotFound (by decide),
   c7_retry_policy.2.1 netAfterThree [7] (by decide) (by decide) (by decide) (by decide),
   c7_retry_policy.2.2 netAlwaysTransient rfl rfl rfl rfl⟩

/-- C3: for every event processed by `lambda_handler`, every database
connection the glue opens through the S3 virtual filesystem is opened with
flags `SQLITE_OPEN_READONLY | SQLITE_OPEN_URI` and every SQL statement it
executes is a SELECT; the glue never performs a write through the storage
path.  The second conjunct covers the (never called) helper
`_fetch_table_list` as well. -/
theorem c3_storage_path_readonly :
    (∀ (bucket pfx vfsname : String) (pages : List S3Page) (db : Db)
      (event : Event),
      (lambdaHandler bucket pfx vfsname pages db event).2.all actionReadOnly =
        true) ∧
    ∀ (tableRows : List String) (path vfsname : String),
      (fetchTableList tableRows path vfsname).2.all actionReadOnly = true := by
  constructor
  · intro bucket pfx vfsname pages db event
    obtain ⟨atType, catalogName, schemaName, tableName, queryId⟩ := event
    cases atType with
    | none => rfl
    | some rt =>
      simp only [lambdaHandler]
      split_ifs <;> (repeat' split) <;> rfl
  · intro tableRows path vfsname
    rfl

/-- Shape of the connection URI built at `s3qlite.py:181`. -/
lemma readRecordsUri_shape (bucket pfx : String) :
    readRecordsUri bucket pfx =
      "file:/" ++ pfx ++ "/" ++ "sample_data" ++ ".sqlite?bucket=" ++ bucket := by
  unfold readRecordsUri
  rw [show ("/sample_data.sqlite?bucket=" : String) =
    "/" ++ "sample_data" ++ ".sqlite?bucket=" from rfl]
  simp only [String.append_assoc]

/-- C4: every connection URI the glue constructs for opening a database
through the S3 virtual filesystem is the scheme-qualified string
`file:/{prefix}/{schema}.sqlite?bucket={bucket}`: the object key appears as
the path component (prefix, schema name, `.sqlite` suffix) and the bucket
appears as the query parameter named `bucket`. -/
theorem c4_uri_format (bucket pfx vfsname : String) (pages : List S3Page)
    (db : Db) (event : Event) :
    ∀ a ∈ (lambdaHandler bucket pfx vfsname pages db event).2,
      uriConformant bucket pfx a := by
  intro a ha
  obtain ⟨atType, catalogName, schemaName, tableName, queryId⟩ := event
  cases atType with
  | none => exact absurd ha (List.not_mem_nil a)
  | some rt =>
    simp only [lambdaHandler] at ha
    split_ifs at ha
    · exact absurd ha (List.not_mem_nil a)
    · simp only [ListTablesRequest.execute, List.mem_singleton] at ha
      subst ha
      exact ⟨_, rfl⟩
    · (repeat' split at ha) <;> exact absurd ha (List.not_mem_nil a)
    · (repeat' split at ha) <;> exact absurd ha (List.not_mem_nil a)
    · (repeat' split at ha) <;> exact absurd ha (List.not_mem_nil a)
    · (repeat' split at ha) <;> exact absurd ha (List.not_mem_nil a)
    · (repeat' split at ha) <;>
        (simp only [List.mem_cons, List.not_mem_nil, or_false] at ha
         rcases ha with ha | ha | ha <;> subst ha <;>
           first
           | exact ⟨"sample_data", readRecordsUri_shape bucket pfx⟩
           | trivial)
    · exact absurd ha (List.not_mem_nil a)

/-- The query oracle returning no rows, for concrete witnesses. -/
def dbEmpty : Db := fun _ _ => []

/-- A concrete ReadRecordsRequest event. -/
def evReadRecords : Event := ⟨some "ReadRecordsRequest", some "cat", none, none, none⟩

/-- Witness for C4: a concrete open action in the trace of the handler has the
required URI shape. -/
theorem c4_witness :
    StorageAction.openConn (readRecordsUri "mybucket" "data")
        (SQLITE_OPEN_READONLY ||| SQLITE_OPEN_URI) "vfs" ∈
      (lambdaHandler "mybucket" "data" "vfs" [] dbEmpty evReadRecords).2 ∧
    uriConformant "mybucket" "data"
      (.openConn (readRecordsUri "mybucket" "data")
        (SQLITE_OPEN_READONLY ||| SQLITE_OPEN_URI) "vfs") :=
  ⟨by decide,
   c4_uri_format "mybucket" "data" "vfs" [] dbEmpty evReadRecords _ (by decide)⟩

/-- C5: for every ReadRecordsRequest event, `lambda_handler` opens the
database read-only through the S3 virtual filesystem, executes
`SELECT * FROM records`, and returns a ReadRecordsResponse whose records
block contains exactly the rows produced by that query, in query order,
under the schema (year: int64, month: int64, day: int64, someval: string),
with the catalogName of the event echoed back. -/
theorem c5_read_records_response (bucket pfx vfsname : String)
    (pages : List S3Page) (db : Db) (event : Event) (cat : String)
    (ht : event.atType = some "ReadRecordsRequest")
    (hc : event.catalogName = some cat) :
    lambdaHandler bucket pfx vfsname pages db event =
      (.ok (some (.readRecords cat recordsSchema
        ((db (readRecordsUri bucket pfx) "SELECT * FROM records").map fun r => r.1)
        ((db (readRecordsUri bucket pfx) "SELECT * FROM records").map fun r => r.2.1)
        ((db (readRecordsUri bucket pfx) "SELECT * FROM records").map fun r => r.2.2.1)
        ((db (readRecordsUri bucket pfx) "SELECT * FROM records").map fun r => r.2.2.2))),
       [.buildUri (readRecordsUri bucket pfx),
        .openConn (readRecordsUri bucket pfx)
          (SQLITE_OPEN_READONLY ||| SQLITE_OPEN_URI) vfsname,
        .execSql "SELECT * FROM records"]) ∧
    rowsOfColumns
        ((db (readRecordsUri bucket pfx) "SELECT * FROM records").map fun r => r.1)
        ((db (readRecordsUri bucket pfx) "SELECT * FROM records").map fun r => r.2.1)
        ((db (readRecordsUri bucket pfx) "SELECT * FROM records").map fun r => r.2.2.1)
        ((db (readRecordsUri bucket pfx) "SELECT * FROM records").map fun r => r.2.2.2) =
      db (readRecordsUri bucket pfx) "SELECT * FROM records" := by
  obtain ⟨atType, catalogName, schemaName, tableName, queryId⟩ := event
  dsimp only at ht hc
  subst ht
  subst hc
  exact ⟨rfl, rowsOfColumns_map _⟩

/-- The query oracle returning one concrete row. -/
def dbOneRow : Db := fun _ _ => [(2019, 1, 2, "hello")]

/-- A concrete ReadRecordsRequest event with catalog `mycat`. -/
def evReadRecMycat : Event :=
  ⟨some "ReadRecordsRequest", some "mycat", none, none, none⟩

/-- Witness for C5 at a concrete event and a one-row database. -/
theorem c5_witness :
    evReadRecMycat.atType = some "ReadRecordsRequest" ∧
    evReadRecMycat.catalogName = some "mycat" ∧
    (lambdaHandler "b" "p" "v" [] dbOneRow evReadRecMycat =
      (.ok (some (.readRecords "mycat" recordsSchema
        ((dbOneRow (readRecordsUri "b" "p") "SELECT * FROM records").map fun r => r.1)
        ((dbOneRow (readRecordsUri "b" "p") "SELECT * FROM records").map fun r => r.2.1)
        ((dbOneRow (readRecordsUri "b" "p") "SELECT * FROM records").map fun r => r.2.2.1)
        ((dbOneRow (readRecordsUri "b" "p") "SELECT * FROM records").map fun r => r.2.2.2))),
       [.buildUri (readRecordsUri "b" "p"),
        .openConn (readRecordsUri "b" "p")
          (SQLITE_OPEN_READONLY ||| SQLITE_OPEN_URI) "v",
        .execSql "SELECT * FROM records"]) ∧
    rowsOfColumns
        ((dbOneRow (readRecordsUri "b" "p") "SELECT * FROM records").map fun r => r.1)
        ((dbOneRow (readRecordsUri "b" "p") "SELECT * FROM records").map fun r => r.2.1)
        ((dbOneRow (readRecordsUri "b" "p") "SELECT * FROM records").map fun r => r.2.2.1)
        ((dbOneRow (readRecordsUri "b" "p") "SELECT * FROM records").map fun r => r.2.2.2) =
      dbOneRow (readRecordsUri "b" "p") "SELECT * FROM records") :=
  ⟨rfl, rfl,
   c5_read_records_response "b" "p" "v" [] dbOneRow evReadRecMycat "mycat" rfl rfl⟩

/-- C8: for every sequence of S3 listing responses,
`ListSchemasRequest.execute` returns a ListSchemasResponse whose schemas
list contains, for each object listed under the configured prefix across
all continuation pages and in listing order, the object key with every
occurrence of `{prefix}/` and every occurrence of `.sqlite` removed, and
whose catalogName echoes the catalogName of the event; the listing is
non-recursive (every issued request has delimiter `/`). -/
theorem c8_list_schemas_pagination (bucket pfx : String) (pages : List S3Page)
    (event : Event) (cat : String) (hc : event.catalogName = some cat) :
    ListSchemasRequest.execute bucket pfx pages event =
      .ok (.listSchemas cat
        (((consumedPages pages).map
          fun p => p.contents.map (sqliteBasename pfx)).flatten)) ∧
    (listCalls bucket pfx none pages).all
      (fun call => call.delimiter == "/" && call.keyPfx == pfx ++ "/" &&
        call.bucket == bucket) = true := by
  refine ⟨?_, listCalls_shape bucket pfx none pages⟩
  simp only [ListSchemasRequest.execute, hc, listSqliteObjects_eq]

/-- One-page listing response holding a single sqlite object key. -/
def pagesOne : List S3Page := [⟨["data/mydb.sqlite"], none⟩]

/-- A concrete ListSchemasRequest event with catalog `cat`. -/
def evListSchemas : Event := ⟨some "ListSchemasRequest", some "cat", none, none, none⟩

/-- Witness for C8 at a concrete one-page listing. -/
theorem c8_witness :
    evListSchemas.catalogName = some "cat" ∧
    (ListSchemasRequest.execute "mybucket" "data" pagesOne evListSchemas =
      .ok (.listSchemas "cat"
        (((consumedPages pagesOne).map
          fun p => p.contents.map (sqliteBasename "data")).flatten)) ∧
    (listCalls "mybucket" "data" none pagesOne).all
      (fun call => call.delimiter == "/" && call.keyPfx == "data" ++ "/" &&
        call.bucket == "mybucket") = true) :=
  ⟨rfl, c8_list_schemas_pagination "mybucket" "data" pagesOne evListSchemas "cat" rfl⟩

/-- Sanity check of the key transformation on a concrete object key. -/
lemma sqliteBasename_concrete :
    sqliteBasename "data" "data/mydb.sqlite" = "mydb" := by decide

/-- A ListTablesRequest event that lacks the `catalogName` key. -/
def evListTablesNoCatalog : Event :=
  ⟨some "ListTablesRequest", none, some "mydb", none, none⟩

/-- C9 counterexample: on an event without a `catalogName` key,
`ListTablesRequest.execute` raises a `KeyError` for `catalogName` — not the
NameError the claim asserts for every event. -/
theorem c9_counterexample :
    (ListTablesRequest.execute "mybucket" "data" evListTablesNoCatalog).1 =
        .error (.keyError "catalogName") ∧
    (ListTablesRequest.execute "mybucket" "data" evListTablesNoCatalog).1 ≠
        .error (.nameError "tables") :=
  ⟨rfl, by intro h; simp [ListTablesRequest.execute, evListTablesNoCatalog] at h⟩

/-- C9 (amended): `ListTablesRequest.execute` always raises — a
`NameError` for the unbound name `tables` whenever the event carries a
`catalogName` key, and a `KeyError` for `catalogName` otherwise — and it
never returns a ListTablesResponse; the helper `_fetch_table_list` is never
called, the only storage action being the construction of the connection
URI. -/
theorem c9_list_tables_always_raises (bucket pfx : String) (event : Event) :
    (ListTablesRequest.execute bucket pfx event).1 =
      (match event.catalogName with
       | none => .error (.keyError "catalogName")
       | some _ => .error (.nameError "tables")) ∧
    (ListTablesRequest.execute bucket pfx event).2 =
      [.buildUri ("file:/" ++ pfx ++ "/" ++
        (match event.schemaName with | some s => s | none => "None") ++
        ".sqlite?bucket=" ++ bucket)] :=
  ⟨rfl, rfl⟩

/-- The list of request types `lambda_handler` dispatches on
(`s3qlite.py:78-169`). -/
def handledRequestTypes : List String :=
  ["ListSchemasRequest", "ListTablesRequest", "GetTableRequest",
   "PingRequest", "GetTableLayoutRequest", "GetSplitsRequest",
   "ReadRecordsRequest"]

/-- C10: `lambda_handler` dispatches solely on the `@type` field of the event:
for every event whose `@type` value is not one of the seven handled request
types it returns None (no response), and for an event lacking the `@type`
key it raises a KeyError. -/
theorem c10_dispatch_on_type (bucket pfx vfsname : String)
    (pages : List S3Page) (db : Db) :
    (∀ (event : Event) (t : String), event.atType = some t →
      t ∉ handledRequestTypes →
      lambdaHandler bucket pfx vfsname pages db event = (.ok none, [])) ∧
    ∀ event : Event, event.atType = none →
      lambdaHandler bucket pfx vfsname pages db event =
        (.error (.keyError "@type"), []) := by
  constructor
  · intro event t ht hnot
    simp only [handledRequestTypes, List.mem_cons, List.not_mem_nil, or_false,
      not_or] at hnot
    obtain ⟨h1, h2, h3, h4, h5, h6, h7⟩ := hnot
    simp [lambdaHandler, ht, h1, h2, h3, h4, h5, h6, h7]
  · intro event h0
    simp [lambdaHandler, h0]

/-- An event with an unhandled request type. -/
def evUnknownType : Event := ⟨some "FooRequest", some "cat", none, none, none⟩

/-- An event with no `@type` key. -/
def evNoType : Event := ⟨none, some "cat", none, none, none⟩

/-- Witness for C10 at a concrete unhandled type and a concrete event with
no `@type` key. -/
theorem c10_witness :
    evUnknownType.atType = some "FooRequest" ∧
    "FooRequest" ∉ handledRequestTypes ∧
    lambdaHandler "b" "p" "v" [] dbEmpty evUnknownType = (.ok none, []) ∧
    evNoType.atType = none ∧
    lambdaHandler "b" "p" "v" [] dbEmpty evNoType =
      (.error (.keyError "@type"), []) :=
  ⟨rfl, by decide,
   (c10_dispatch_on_type "b" "p" "v" [] dbEmpty).1 evUnknownType "FooRequest"
     rfl (by decide),
   rfl,
   (c10_dispatch_on_type "b" "p" "v" [] dbEmpty).2 evNoType rfl⟩

end AthenaSqlite
